import Mathlib

/-!
Verification of `generateArrow.py` (ArrowAnimationGenerator).

The Python class is shallowly embedded: its constructor parameters become the
fields of `ArrowGen`, derived attributes (`total_frames`, `rotation_offset`)
become functions of the configuration, the geometry of
`create_arrow_polygon` becomes a pure function on real numbers, and the
effectful pipeline (`generate_frames`, `_check_ffmpeg`, `create_video`, `run`)
becomes a function from an explicit environment (encoder availability, process
exit codes, rasterizer and cleanup outcomes) to a pipeline outcome.
-/

/-- Configuration of `ArrowAnimationGenerator.__init__`: one field per
constructor parameter.  Python `int` parameters are modelled as `ℤ`,
`float` as `ℝ`, strings as `String`. -/
structure ArrowGen where
  arrow_size : ℝ
  arrow_width : ℝ
  arrow_body_width : ℝ
  arrow_color : String
  width : ℝ
  height : ℝ
  fps : ℤ
  duration : ℝ
  frequency : ℝ
  output_file : String

/-- The default configuration from the Python signature:
`arrow_size=100, arrow_width=40, arrow_body_width=10, arrow_color='red',
width=400, height=400, fps=30, duration=20.0, frequency=0.5,
output_file='arrow_rotation.mov'`. -/
noncomputable def base_gen : ArrowGen :=
  { arrow_size := 100
    arrow_width := 40
    arrow_body_width := 10
    arrow_color := "red"
    width := 400
    height := 400
    fps := 30
    duration := 20
    frequency := 1/2
    output_file := "arrow_rotation.mov" }

/-- Python `int(x)` on a real value: truncation toward zero. -/
noncomputable def int_trunc (x : ℝ) : ℤ :=
  if 0 ≤ x then ⌊x⌋ else ⌈x⌉

/-- Derived attribute `self.total_frames = int(self.fps * self.duration)` (line 79). -/
noncomputable def total_frames (g : ArrowGen) : ℤ :=
  int_trunc ((g.fps : ℝ) * g.duration)

/-- Derived attribute `self.rotation_offset = -self.arrow_size * 0.1` (line 82). -/
noncomputable def rotation_offset (g : ArrowGen) : ℝ :=
  -g.arrow_size * 0.1

/-- Geometry of `create_arrow_polygon` (lines 110-143): the nine local-frame vertices,
each shifted by `- rotation_offset`, then multiplied by the transpose of the
rotation matrix `[[cos a, sin a], [-sin a, cos a]]`, i.e. each row vector
`(x, y)` becomes `(x·cos a + y·sin a, -x·sin a + y·cos a)`. -/
noncomputable def create_arrow_polygon (g : ArrowGen) (angle : ℝ) : List (ℝ × ℝ) :=
  let head_end_y : ℝ := g.arrow_size / 2 - g.arrow_width
  let off : ℝ := rotation_offset g
  let arrow_points : List (ℝ × ℝ) :=
    [ (0, g.arrow_size / 2 - off)
    , (-(g.arrow_width / 2), g.arrow_size / 2 - g.arrow_width - off)
    , (-(g.arrow_width / 4), g.arrow_size / 2 - g.arrow_width - off)
    , (-(g.arrow_body_width / 2), head_end_y - off)
    , (-(g.arrow_body_width / 2), -(g.arrow_size / 2) - off)
    , (g.arrow_body_width / 2, -(g.arrow_size / 2) - off)
    , (g.arrow_body_width / 2, head_end_y - off)
    , (g.arrow_width / 4, g.arrow_size / 2 - g.arrow_width - off)
    , (g.arrow_width / 2, g.arrow_size / 2 - g.arrow_width - off) ]
  let cos_a := Real.cos angle
  let sin_a := Real.sin angle
  arrow_points.map (fun p => (p.1 * cos_a + p.2 * sin_a, -(p.1 * sin_a) + p.2 * cos_a))

/-- The geometry exactly as §4.1 of the specification words it: nine named
vertices with `headEndY = L/2 − W` and `offset = −0.1·L`, each rotated by
`x' = x·cos a + y·sin a`, `y' = −x·sin a + y·cos a`.  Used to compare the
code's geometry against the specification text. -/
noncomputable def spec_polygon (L W B angle : ℝ) : List (ℝ × ℝ) :=
  let headEndY : ℝ := L / 2 - W
  let offset : ℝ := -0.1 * L
  let pts : List (ℝ × ℝ) :=
    [ (0, L / 2 - offset)
    , (-(W / 2), L / 2 - W - offset)
    , (-(W / 4), L / 2 - W - offset)
    , (-(B / 2), headEndY - offset)
    , (-(B / 2), -(L / 2) - offset)
    , (B / 2, -(L / 2) - offset)
    , (B / 2, headEndY - offset)
    , (W / 4, L / 2 - W - offset)
    , (W / 2, L / 2 - W - offset) ]
  pts.map (fun p =>
    (p.1 * Real.cos angle + p.2 * Real.sin angle,
     -(p.1 * Real.sin angle) + p.2 * Real.cos angle))

/-- Angle computation of `animate` (lines 158-160):
`t = frame / self.fps; angle = 2 * pi * self.frequency * t`. -/
noncomputable def animate_angle (g : ArrowGen) (frame : ℕ) : ℝ :=
  let t : ℝ := (frame : ℝ) / (g.fps : ℝ)
  2 * Real.pi * g.frequency * t

/-- The frame indices iterated by `generate_frames`:
`range(self.total_frames)` (line 202). -/
noncomputable def frame_indices (g : ArrowGen) : List ℕ :=
  List.range (total_frames g).toNat

/-- Decimal digits of `n`, most significant first (`Nat.digits` is
little-endian, so we reverse it; `n = 0` gives `[]`, as Python's empty-width
case never arises because of the padding below). -/
def dec_digits (n : ℕ) : List ℕ :=
  (Nat.digits 10 n).reverse

/-- Python's format spec `\x7bn:04d\x7d`: the decimal digits of `n`, left-padded
with zeros to a minimum width of 4. -/
def pad4 (n : ℕ) : List ℕ :=
  List.replicate (4 - (dec_digits n).length) 0 ++ dec_digits n

/-- The staged frame filename `f'frame_\x7bframe:04d\x7d.png'` (line 207). -/
def frame_filename (n : ℕ) : String :=
  "frame_" ++ String.mk ((pad4 n).map Nat.digitChar) ++ ".png"

/-- Models `os.path.join` for the one way the code uses it. -/
def path_join (a b : String) : String := a ++ "/" ++ b

/-- The ffmpeg invocation built by `create_video` (lines 244-252). -/
def ffmpeg_cmd (g : ArrowGen) (temp_dir : String) : List String :=
  [ "ffmpeg"
  , "-y"
  , "-framerate", toString g.fps
  , "-i", path_join temp_dir "frame_%04d.png"
  , "-vcodec", "qtrle"
  , "-pix_fmt", "argb"
  , g.output_file ]

/-- External-world outcomes the pipeline depends on: whether the `ffmpeg`
binary exists, the exit code of the `ffmpeg -version` probe, the exit code
and output streams of the encoding run, whether some `savefig` call raises
(and with what message), and whether `shutil.rmtree` fails. -/
structure Env where
  ffmpeg_found : Bool
  ffmpeg_version_rc : ℤ
  encode_rc : ℤ
  encode_stderr : String
  encode_stdout : String
  frame_error : Option String
  rmtree_fails : Bool
  temp_dir : String

/-- Probe `_check_ffmpeg` (lines 174-188): `True` iff the binary launches and the
version probe exits 0; `FileNotFoundError` (binary absent) gives `False`. -/
def check_ffmpeg (e : Env) : Bool :=
  e.ffmpeg_found && (e.ffmpeg_version_rc == 0)

/-- Outcome of `generate_frames` (lines 190-224): any rasterizer exception is re-raised
as `RuntimeError('生成PNG序列时出错: ' + str(e))`. -/
def generate_frames_result (e : Env) : Except String Unit :=
  match e.frame_error with
  | some msg => .error ("生成PNG序列时出错: " ++ msg)
  | none => .ok ()

/-- The two distinct `RuntimeError` sites of `create_video`. -/
inductive VideoError where
  | ffmpegMissing : String → VideoError
  | ffmpegFailed : String → VideoError
deriving DecidableEq

/-- Outcome of `create_video` (lines 226-261): raise if the ffmpeg probe fails; build
the command; raise with `stderr` (or `stdout` when `stderr` is empty) if the
encoder exits non-zero. -/
def create_video (e : Env) (g : ArrowGen) : Except VideoError Unit :=
  if ¬ check_ffmpeg e then
    .error (.ffmpegMissing "ffmpeg未找到。请确保已安装ffmpeg并添加到系统PATH中。")
  else
    let _cmd := ffmpeg_cmd g e.temp_dir
    if e.encode_rc ≠ 0 then
      .error (.ffmpegFailed ("ffmpeg合成失败: " ++
        (if e.encode_stderr ≠ "" then e.encode_stderr else e.encode_stdout)))
    else
      .ok ()

/-- The specification's error taxonomy (§7) as outcome labels.  The code maps
onto it; a label the code never produces (such as `configError`) stays
unused. -/
inductive PipelineResult where
  | success : PipelineResult
  | configError : String → PipelineResult
  | renderError : String → PipelineResult
  | encoderMissing : String → PipelineResult
  | encoderFailure : String → PipelineResult
deriving DecidableEq

/-- What a whole `run` leaves behind: its result, whether the staging
directory is gone, and whether an output video file was written. -/
structure RunOutcome where
  result : PipelineResult
  staging_removed : Bool
  output_written : Bool
deriving DecidableEq

/-- Whole-run `run` (lines 263-298): generate frames, then encode, with
`shutil.rmtree(temp_dir, ignore_errors=True)` in a `finally` block — cleanup
is always attempted, its failure is swallowed and never alters the result.
The output file exists only when the encoder itself succeeded. -/
def run_pipeline (e : Env) (g : ArrowGen) : RunOutcome :=
  let result : PipelineResult :=
    match generate_frames_result e with
    | .error m => .renderError m
    | .ok _ =>
      match create_video e g with
      | .error (.ffmpegMissing m) => .encoderMissing m
      | .error (.ffmpegFailed m) => .encoderFailure m
      | .ok _ => .success
  { result := result
    staging_removed := !e.rmtree_fails
    output_written := decide (result = .success) }

/-- The AnimationConfig invariants of §3 of the specification: frame rate,
duration and canvas dimensions positive, head width below arrow length, body
width below head width. -/
def valid_config (g : ArrowGen) : Prop :=
  0 < g.fps ∧ 0 < g.duration ∧ 0 < g.width ∧ 0 < g.height ∧
    g.arrow_width < g.arrow_size ∧ g.arrow_body_width < g.arrow_width

/-! ## Claim theorems -/

/-- C1, counterexample: at `fps = 3`, `duration = 0.5` (both positive) the
code computes `total_frames = int(3 * 0.5) = 1`, while
`round(frame_rate * duration) = round(1.5) = 2`: the claimed equality with
`round` fails (the code truncates). -/
theorem c1_total_frames_counterexample :
    (0 : ℤ) < ({ base_gen with fps := 3, duration := 1/2 } : ArrowGen).fps ∧
    (0 : ℝ) < ({ base_gen with fps := 3, duration := 1/2 } : ArrowGen).duration ∧
    total_frames { base_gen with fps := 3, duration := 1/2 } = 1 ∧
    round ((({ base_gen with fps := 3, duration := 1/2 } : ArrowGen).fps : ℝ) *
      ({ base_gen with fps := 3, duration := 1/2 } : ArrowGen).duration) = 2 ∧
    total_frames { base_gen with fps := 1, duration := 1/2 } = 0 := by
  refine ⟨by norm_num, by norm_num [base_gen], ?_, ?_, ?_⟩
  · norm_num [total_frames, int_trunc, base_gen]
  · rw [round_eq]; push_cast; norm_num
  · norm_num [total_frames, int_trunc, base_gen]

/-- C1, amended: `total_frames = int(frame_rate * duration)`, i.e. the
product truncated toward zero — which is `⌊frame_rate * duration⌋` whenever
the product is non-negative, so it can be `0` (it is not always ≥ 1) and
differs from `round` on half-open fractional parts ≥ 1/2; the example
`frame_rate = 30`, `duration = 10.0` still yields `total_frames = 300`. -/
theorem c1_total_frames_amended (g : ArrowGen)
    (h : 0 ≤ (g.fps : ℝ) * g.duration) :
    total_frames g = ⌊(g.fps : ℝ) * g.duration⌋ ∧
    total_frames { base_gen with duration := 10 } = 300 := by
  constructor
  · simp [total_frames, int_trunc, h]
  · norm_num [total_frames, int_trunc, base_gen]

/-- C1, witness for the amended theorem at the default configuration. -/
theorem c1_total_frames_amended_witness :
    total_frames base_gen = ⌊(base_gen.fps : ℝ) * base_gen.duration⌋ ∧
    total_frames { base_gen with duration := 10 } = 300 :=
  c1_total_frames_amended base_gen (by norm_num [base_gen])

/-- C2: for every configuration and angle, `create_arrow_polygon` returns
exactly the 9 local-frame vertices listed in the specification — tip,
left outer wing, left inner notch, left body-top, left tail, then the
mirrored right-side points — with `headEndY = L/2 − W` and
`offset = −0.1·L`, each transformed by the clockwise rotation
`x' = x·cos a + y·sin a`, `y' = −x·sin a + y·cos a`, in that order. -/
theorem c2_polygon_matches_spec (g : ArrowGen) (a : ℝ) :
    create_arrow_polygon g a =
      spec_polygon g.arrow_size g.arrow_width g.arrow_body_width a ∧
    (create_arrow_polygon g a).length = 9 := by
  constructor
  · simp only [create_arrow_polygon, spec_polygon, rotation_offset, List.map]
    norm_num
    ring_nf
    tauto
  · rfl

/-- C3: the per-frame angle equals `2π · frequency · (frame / frame_rate)`,
computed statelessly from the frame index, and `angle(0) = 0`. -/
theorem c3_angle_formula (g : ArrowGen) (frame : ℕ) (h : 0 < g.fps) :
    animate_angle g frame = 2 * Real.pi * g.frequency * ((frame : ℝ) / (g.fps : ℝ)) ∧
    animate_angle g 0 = 0 := by
  exact ⟨rfl, by simp [animate_angle]⟩

/-- C3, witness at the default configuration, frame 5. -/
theorem c3_angle_formula_witness :
    animate_angle base_gen 5 =
      2 * Real.pi * base_gen.frequency * ((5 : ℝ) / (base_gen.fps : ℝ)) ∧
    animate_angle base_gen 0 = 0 :=
  c3_angle_formula base_gen 5 (by norm_num [base_gen])

/-- C4: the ffmpeg invocation is the fixed argument vector: it passes `-y`
(unconditional overwrite of the output path), its `-framerate` argument is
exactly the generator's `fps` (the same field the frame sequencer divides
by), and the codec/pixel-format pair is `qtrle`/`argb` (QuickTime Animation
with an alpha-capable pixel format). -/
theorem c4_ffmpeg_invocation (g : ArrowGen) (d : String) :
    "-y" ∈ ffmpeg_cmd g d ∧
    (ffmpeg_cmd g d).get? 2 = some "-framerate" ∧
    (ffmpeg_cmd g d).get? 3 = some (toString g.fps) ∧
    (ffmpeg_cmd g d).get? 6 = some "-vcodec" ∧
    (ffmpeg_cmd g d).get? 7 = some "qtrle" ∧
    (ffmpeg_cmd g d).get? 8 = some "-pix_fmt" ∧
    (ffmpeg_cmd g d).get? 9 = some "argb" ∧
    (ffmpeg_cmd g d).get? 5 = some (path_join d "frame_%04d.png") := by
  refine ⟨?_, rfl, rfl, rfl, rfl, rfl, rfl, rfl⟩
  simp [ffmpeg_cmd]

/-- C9: full-turn idempotence — the polygon at `angle = 2π` equals the
polygon at `angle = 0`, vertex for vertex, for every configuration. -/
theorem c9_full_turn_idempotence (g : ArrowGen) :
    create_arrow_polygon g (2 * Real.pi) = create_arrow_polygon g 0 := by
  simp [create_arrow_polygon, Real.cos_two_pi, Real.sin_two_pi]

/-- C10: the polygon depends only on the angle and the three shape
parameters — two generators agreeing on `arrow_size`, `arrow_width` and
`arrow_body_width` produce identical vertex lists at every angle, whatever
their canvas size, color, frame rate, duration, frequency or output path. -/
theorem c10_polygon_noninterference (g1 g2 : ArrowGen) (a : ℝ)
    (h1 : g1.arrow_size = g2.arrow_size)
    (h2 : g1.arrow_width = g2.arrow_width)
    (h3 : g1.arrow_body_width = g2.arrow_body_width) :
    create_arrow_polygon g1 a = create_arrow_polygon g2 a := by
  simp [create_arrow_polygon, rotation_offset, h1, h2, h3]

/-- C10, witness: two configurations differing in color, canvas, timing and
output path but sharing the shape parameters give the same polygon. -/
theorem c10_polygon_noninterference_witness :
    create_arrow_polygon base_gen 1 =
      create_arrow_polygon
        { base_gen with
            arrow_color := "blue"
            width := 800
            height := 600
            fps := 60
            duration := 5
            frequency := 2
            output_file := "o.mov" } 1 :=
  c10_polygon_noninterference _ _ 1 rfl rfl rfl

/-- C6, counterexample: the configuration with `arrow_width = 200` violates
the head-width < arrow-length invariant, yet the pipeline runs to success
under a healthy environment (no configuration error, no fail-fast), and its
frame loop would run 600 frames. The constructor performs no validation. -/
theorem c6_no_validation_counterexample :
    ¬ valid_config { base_gen with arrow_width := 200 } ∧
    run_pipeline ⟨true, 0, 0, "", "", none, false, "stage"⟩
        { base_gen with arrow_width := 200 } =
      { result := .success, staging_removed := true, output_written := true } ∧
    total_frames { base_gen with arrow_width := 200 } = 600 := by
  refine ⟨?_, rfl, ?_⟩
  · norm_num [valid_config, base_gen]
  · norm_num [total_frames, int_trunc, base_gen]

/-- C6, amended: the code performs no configuration validation at all — for
every configuration (valid or invariant-violating) and every environment,
the pipeline never reports a configuration error; invalid configurations are
accepted and the run proceeds to frame generation and encoding. -/
theorem c6_no_validation_amended (e : Env) (g : ArrowGen) (m : String) :
    (run_pipeline e g).result ≠ PipelineResult.configError m := by
  unfold run_pipeline generate_frames_result create_video
  rcases e.frame_error with _ | msg <;> simp <;> split <;> simp

/-- C7: when the encoder exits non-zero the run fails with
`ffmpeg合成失败: ` followed verbatim by the encoder's stderr (or stdout when
stderr is empty), unparsed; and for every environment the staging-directory
removal is attempted (removed exactly when removal does not fail) while the
run's result is unchanged by whether removal fails. -/
theorem c7_encoder_failure_and_cleanup (e : Env) (g : ArrowGen) (b : Bool) :
    (check_ffmpeg e = true → e.frame_error = none → e.encode_rc ≠ 0 →
      (run_pipeline e g).result =
        .encoderFailure ("ffmpeg合成失败: " ++
          (if e.encode_stderr ≠ "" then e.encode_stderr else e.encode_stdout))) ∧
    (run_pipeline e g).staging_removed = !e.rmtree_fails ∧
    (run_pipeline { e with rmtree_fails := b } g).result =
      (run_pipeline e g).result := by
  refine ⟨?_, rfl, rfl⟩
  intro h1 h2 h3
  simp [run_pipeline, generate_frames_result, create_video, h1, h2, h3]

/-- C7, witness: encoder exits 1 with stderr `boom`; the run reports the
verbatim diagnostic, cleanup is attempted, and a failing cleanup leaves the
result unchanged. -/
theorem c7_encoder_failure_and_cleanup_witness :
    (run_pipeline ⟨true, 0, 1, "boom", "", none, false, "stage"⟩ base_gen).result =
      .encoderFailure "ffmpeg合成失败: boom" ∧
    (run_pipeline ⟨true, 0, 1, "boom", "", none, false, "stage"⟩ base_gen).staging_removed =
      !(⟨true, 0, 1, "boom", "", none, false, "stage"⟩ : Env).rmtree_fails ∧
    (run_pipeline { (⟨true, 0, 1, "boom", "", none, false, "stage"⟩ : Env) with
        rmtree_fails := true } base_gen).result =
      (run_pipeline ⟨true, 0, 1, "boom", "", none, false, "stage"⟩ base_gen).result := by
  refine ⟨?_,
    (c7_encoder_failure_and_cleanup ⟨true, 0, 1, "boom", "", none, false, "stage"⟩
      base_gen true).2.1,
    (c7_encoder_failure_and_cleanup ⟨true, 0, 1, "boom", "", none, false, "stage"⟩
      base_gen true).2.2⟩
  rw [(c7_encoder_failure_and_cleanup ⟨true, 0, 1, "boom", "", none, false, "stage"⟩
      base_gen true).1 rfl rfl (by decide)]
  decide

/-- C8: when the ffmpeg binary is absent the run reports the distinct
encoder-missing message, writes no output file, and (when removal succeeds)
the staging directory no longer exists afterward. -/
theorem c8_encoder_unavailable (e : Env) (g : ArrowGen)
    (h1 : e.ffmpeg_found = false) (h2 : e.frame_error = none)
    (h3 : e.rmtree_fails = false) :
    (run_pipeline e g).result =
      .encoderMissing "ffmpeg未找到。请确保已安装ffmpeg并添加到系统PATH中。" ∧
    (run_pipeline e g).output_written = false ∧
    (run_pipeline e g).staging_removed = true := by
  refine ⟨?_, ?_, ?_⟩ <;>
    simp [run_pipeline, generate_frames_result, create_video, check_ffmpeg, h1, h2, h3]

/-- C8, witness: the concrete binary-absent environment. -/
theorem c8_encoder_unavailable_witness :
    (run_pipeline ⟨false, 0, 0, "", "", none, false, "stage"⟩ base_gen).result =
      .encoderMissing "ffmpeg未找到。请确保已安装ffmpeg并添加到系统PATH中。" ∧
    (run_pipeline ⟨false, 0, 0, "", "", none, false, "stage"⟩ base_gen).output_written
      = false ∧
    (run_pipeline ⟨false, 0, 0, "", "", none, false, "stage"⟩ base_gen).staging_removed
      = true :=
  c8_encoder_unavailable ⟨false, 0, 0, "", "", none, false, "stage"⟩ base_gen rfl rfl rfl

/-- For indices below 10000 the padded digit list is exactly the four
decimal digits, most significant first. -/
theorem pad4_eq (n : ℕ) (hn : n ≤ 9999) :
    pad4 n = [n / 1000, n / 100 % 10, n / 10 % 10, n % 10] := by
  unfold pad4 dec_digits
  rcases Nat.eq_zero_or_pos n with rfl | h0
  · simp
  rcases lt_or_le n 10 with h1 | h1
  · have hd : Nat.digits 10 n = [n % 10] := by
      rw [Nat.digits_def' (by norm_num : (1:ℕ) < 10) h0, Nat.div_eq_of_lt h1,
        Nat.digits_zero]
    rw [hd]
    simp only [List.reverse_cons, List.reverse_nil, List.nil_append, List.length_cons,
      List.length_nil]
    norm_num [List.replicate]
    omega
  rcases lt_or_le n 100 with h2 | h2
  · have hd : Nat.digits 10 n = [n % 10, n / 10 % 10] := by
      rw [Nat.digits_def' (by norm_num : (1:ℕ) < 10) h0,
        Nat.digits_def' (by norm_num : (1:ℕ) < 10) (show 0 < n / 10 by omega),
        show n / 10 / 10 = 0 by omega, Nat.digits_zero]
    rw [hd]
    simp only [List.reverse_cons, List.reverse_nil, List.nil_append, List.length_cons,
      List.length_nil]
    norm_num [List.replicate]
    omega
  rcases lt_or_le n 1000 with h3 | h3
  · have hd : Nat.digits 10 n = [n % 10, n / 10 % 10, n / 100 % 10] := by
      rw [Nat.digits_def' (by norm_num : (1:ℕ) < 10) h0,
        Nat.digits_def' (by norm_num : (1:ℕ) < 10) (show 0 < n / 10 by omega),
        show n / 10 / 10 = n / 100 by omega,
        Nat.digits_def' (by norm_num : (1:ℕ) < 10) (show 0 < n / 100 by omega),
        show n / 100 / 10 = 0 by omega, Nat.digits_zero]
    rw [hd]
    simp only [List.reverse_cons, List.reverse_nil, List.nil_append, List.length_cons,
      List.length_nil]
    norm_num [List.replicate]
    omega
  · have hd : Nat.digits 10 n = [n % 10, n / 10 % 10, n / 100 % 10, n / 1000 % 10] := by
      rw [Nat.digits_def' (by norm_num : (1:ℕ) < 10) h0,
        Nat.digits_def' (by norm_num : (1:ℕ) < 10) (show 0 < n / 10 by omega),
        show n / 10 / 10 = n / 100 by omega,
        Nat.digits_def' (by norm_num : (1:ℕ) < 10) (show 0 < n / 100 by omega),
        show n / 100 / 10 = n / 1000 by omega,
        Nat.digits_def' (by norm_num : (1:ℕ) < 10) (show 0 < n / 1000 by omega),
        show n / 1000 / 10 = 0 by omega, Nat.digits_zero]
    rw [hd]
    simp only [List.reverse_cons, List.reverse_nil, List.nil_append, List.length_cons,
      List.length_nil]
    norm_num [List.replicate]
    omega

/-- Digit characters are strictly increasing in the digit. -/
theorem digitChar_mono : ∀ d1 < 10, ∀ d2 < 10, d1 < d2 →
    Nat.digitChar d1 < Nat.digitChar d2 := by decide

/-- The character data of a staged filename for an index below 10000. -/
theorem frame_filename_data (n : ℕ) (hn : n ≤ 9999) :
    (frame_filename n).data =
      ['f', 'r', 'a', 'm', 'e', '_'] ++
        [Nat.digitChar (n / 1000), Nat.digitChar (n / 100 % 10),
          Nat.digitChar (n / 10 % 10), Nat.digitChar (n % 10)] ++
        ['.', 'p', 'n', 'g'] := by
  rw [frame_filename, pad4_eq n hn]
  simp [String.data_append]

/-- Staged filenames compare lexicographically like their indices, for
indices below 10000. -/
theorem frame_filename_lt (i j : ℕ) (hij : i < j) (hj : j ≤ 9999) :
    frame_filename i < frame_filename j := by
  have hi : i ≤ 9999 := by omega
  rw [String.lt_iff_toList_lt]
  show (frame_filename i).data < (frame_filename j).data
  rw [frame_filename_data i hi, frame_filename_data j hj, List.append_assoc,
    List.append_assoc]
  have key : i / 1000 < j / 1000 ∨ (i / 1000 = j / 1000 ∧
      (i / 100 % 10 < j / 100 % 10 ∨ (i / 100 % 10 = j / 100 % 10 ∧
        (i / 10 % 10 < j / 10 % 10 ∨ (i / 10 % 10 = j / 10 % 10 ∧
          i % 10 < j % 10))))) := by omega
  show List.Lex (· < ·) _ _
  refine List.Lex.append_left _ ?_ _
  rcases key with h | ⟨e3, key⟩
  · exact List.Lex.rel (digitChar_mono _ (by omega) _ (by omega) h)
  rw [e3]
  refine List.Lex.cons ?_
  rcases key with h | ⟨e2, key⟩
  · exact List.Lex.rel (digitChar_mono _ (by omega) _ (by omega) h)
  rw [e2]
  refine List.Lex.cons ?_
  rcases key with h | ⟨e1, key⟩
  · exact List.Lex.rel (digitChar_mono _ (by omega) _ (by omega) h)
  rw [e1]
  refine List.Lex.cons ?_
  exact List.Lex.rel (digitChar_mono _ (by omega) _ (by omega) key)

/-- C5: the frame sequencer iterates `0 .. total_frames - 1` in strictly
increasing order; filenames are zero-padded to width 4, so for indices up to
9999 their lexicographic (string) order equals numeric frame order; and each
filename is `frame_` + 4 digits + `.png`, the shape matched by the
`frame_%04d.png` pattern handed to the encoder. -/
theorem c5_frame_order (g : ArrowGen) (i j : ℕ) (hij : i < j) (hj : j ≤ 9999) :
    List.Sorted (· < ·) (frame_indices g) ∧
    frame_filename i < frame_filename j ∧
    (pad4 i).length = 4 ∧
    (pad4 i).all (fun d => decide (d < 10)) = true ∧
    frame_filename i = "frame_" ++ String.mk ((pad4 i).map Nat.digitChar) ++ ".png" := by
  have hi : i ≤ 9999 := by omega
  refine ⟨?_, frame_filename_lt i j hij hj, ?_, ?_, rfl⟩
  · rw [frame_indices]
    exact List.sorted_lt_range _
  · rw [pad4_eq i hi]
    rfl
  · rw [pad4_eq i hi]
    simp only [List.all_cons, List.all_nil, Bool.and_eq_true, decide_eq_true_eq]
    refine ⟨by omega, by omega, by omega, by omega, trivial⟩

/-- C5, witness at the default configuration with indices 7 < 123. -/
theorem c5_frame_order_witness :
    List.Sorted (· < ·) (frame_indices base_gen) ∧
    frame_filename 7 < frame_filename 123 ∧
    (pad4 7).length = 4 ∧
    (pad4 7).all (fun d => decide (d < 10)) = true ∧
    frame_filename 7 = "frame_" ++ String.mk ((pad4 7).map Nat.digitChar) ++ ".png" :=
  c5_frame_order base_gen 7 123 (by norm_num) (by norm_num)
